import Mathlib

/-!
Verification of the Groq → OpenAI-compatible proxy
(`samples/python/agents/langgraph/groq_wrapper_server.py`).

The Python module is shallowly embedded: JSON values (Python dicts, lists,
strings, ints, bools, None as they travel through `json.loads`/`json.dumps`)
become the inductive `Json`; Python dicts become insertion-ordered association
lists with the usual `get`/`pop`/`setdefault`/item-assignment operations;
functions that can raise (`KeyError`, `IndexError`, `TypeError`,
`json.JSONDecodeError` escaping a handler) return `Except String`.
Numbers are modelled as integers: no claim involves fractional or exponent
literals, and the modelled `json_loads` rejects them where CPython would
build a float.
-/

namespace GroqWrapper

/-- JSON values as produced by `json.loads` / consumed by `json.dumps`.
Python `None` is `null`; dict insertion order is kept in `obj`. -/
inductive Json where
  | null : Json
  | bool (b : Bool) : Json
  | num (n : Int) : Json
  | str (s : String) : Json
  | arr (elems : List Json) : Json
  | obj (fields : List (String × Json)) : Json
  deriving Repr

/-- A Python dict with string keys, in insertion order (keys unique in
every value the program builds). -/
abbrev Dict := List (String × Json)

/-- Lookup `d.get(k)` / `d[k]`: value at the first binding of `k`. -/
def dictGet (d : Dict) (k : String) : Option Json :=
  match d with
  | [] => none
  | (k', v) :: rest => if k' = k then some v else dictGet rest k

/-- Removal of a key, as done by `d.pop(k, None)`: all bindings of `k`
disappear (a real dict has at most one). -/
def dictRemove (d : Dict) (k : String) : Dict :=
  match d with
  | [] => []
  | (k', v) :: rest => if k' = k then dictRemove rest k else (k', v) :: dictRemove rest k

/-- Assignment `d[k] = v`: update in place when `k` is present (keeping its position),
append otherwise — CPython dict insertion-order semantics. -/
def dictSet (d : Dict) (k : String) (v : Json) : Dict :=
  match d with
  | [] => [(k, v)]
  | (k', v') :: rest => if k' = k then (k, v) :: rest else (k', v') :: dictSet rest k v

/-- Operation `d.setdefault(k, dflt)`: the stored value and the possibly-extended dict. -/
def dictSetdefault (d : Dict) (k : String) (dflt : Json) : Json × Dict :=
  match dictGet d k with
  | some v => (v, d)
  | none => (dflt, d ++ [(k, dflt)])

/-- Python truthiness of a JSON value (`bool(x)`). -/
def truthy : Json → Bool
  | .null => false
  | .bool b => b
  | .num n => n != 0
  | .str s => s ≠ ""
  | .arr l => !l.isEmpty
  | .obj m => !m.isEmpty

/-- Coercion used where the Python code would raise `TypeError`/`AttributeError`
on a non-dict value. -/
def asObj : Json → Except String Dict
  | .obj m => .ok m
  | _ => .error "TypeError: not a dict"

/-- Coercion used where the Python code would raise on a non-list value. -/
def asArr : Json → Except String (List Json)
  | .arr l => .ok l
  | _ => .error "TypeError: not a list"

theorem dictGet_set_self (d : Dict) (k : String) (v : Json) :
    dictGet (dictSet d k v) k = some v := by
  induction d with
  | nil => simp [dictSet, dictGet]
  | cons p rest ih =>
    obtain ⟨k', v'⟩ := p
    by_cases h : k' = k <;> simp [dictSet, dictGet, h, ih]

theorem dictGet_set_other (d : Dict) (k k' : String) (v : Json) (hne : k ≠ k') :
    dictGet (dictSet d k v) k' = dictGet d k' := by
  induction d with
  | nil => simp [dictSet, dictGet, hne]
  | cons p rest ih =>
    obtain ⟨k'', v''⟩ := p
    by_cases h : k'' = k
    · subst h
      simp [dictSet, dictGet, hne]
    · simp [dictSet, dictGet, h, ih]

theorem dictGet_remove_self (d : Dict) (k : String) :
    dictGet (dictRemove d k) k = none := by
  induction d with
  | nil => simp [dictRemove, dictGet]
  | cons p rest ih =>
    obtain ⟨k', v⟩ := p
    by_cases h : k' = k <;> simp [dictRemove, dictGet, h, ih]

theorem dictGet_remove_other (d : Dict) (k k' : String) (hne : k ≠ k') :
    dictGet (dictRemove d k) k' = dictGet d k' := by
  induction d with
  | nil => simp [dictRemove, dictGet]
  | cons p rest ih =>
    obtain ⟨k'', v⟩ := p
    by_cases h : k'' = k
    · subst h
      simp [dictRemove, dictGet, hne, ih]
    · simp [dictRemove, dictGet, h, ih]

/-- JSON whitespace accepted by the CPython `json` module: space, tab, LF, CR. -/
def isJsonWs (c : Char) : Bool :=
  c = ' ' || c = '\t' || c = '\n' || c = '\r'

def skipWs : List Char → List Char
  | [] => []
  | c :: rest => if isJsonWs c then skipWs rest else c :: rest

def hexVal (c : Char) : Option Nat :=
  if '0' ≤ c ∧ c ≤ '9' then some (c.toNat - 48)
  else if 'a' ≤ c ∧ c ≤ 'f' then some (c.toNat - 87)
  else if 'A' ≤ c ∧ c ≤ 'F' then some (c.toNat - 55)
  else none

/-- Body of a JSON string literal, the opening quote already consumed.
Returns the decoded string and the input after the closing quote.
`\uXXXX` escapes decode to the scalar value when it is one (surrogate-pair
recombination and lone surrogates, which CPython tolerates, are outside the
modelled fragment). Bare control characters are rejected (`strict=True`). -/
def parseStrBody : List Char → String → Option (String × List Char)
  | [], _ => none
  | '"' :: rest, acc => some (acc, rest)
  | '\\' :: '"' :: rest, acc => parseStrBody rest (acc.push '"')
  | '\\' :: '\\' :: rest, acc => parseStrBody rest (acc.push '\\')
  | '\\' :: '/' :: rest, acc => parseStrBody rest (acc.push '/')
  | '\\' :: 'b' :: rest, acc => parseStrBody rest (acc.push (Char.ofNat 8))
  | '\\' :: 'f' :: rest, acc => parseStrBody rest (acc.push (Char.ofNat 12))
  | '\\' :: 'n' :: rest, acc => parseStrBody rest (acc.push '\n')
  | '\\' :: 'r' :: rest, acc => parseStrBody rest (acc.push '\r')
  | '\\' :: 't' :: rest, acc => parseStrBody rest (acc.push '\t')
  | '\\' :: 'u' :: h1 :: h2 :: h3 :: h4 :: rest, acc =>
    match hexVal h1, hexVal h2, hexVal h3, hexVal h4 with
    | some a, some b, some c, some d =>
      parseStrBody rest (acc.push (Char.ofNat (((a * 16 + b) * 16 + c) * 16 + d)))
    | _, _, _, _ => none
  | '\\' :: _, _ => none
  | c :: rest, acc => if c.toNat < 32 then none else parseStrBody rest (acc.push c)

def isDigit (c : Char) : Bool := '0' ≤ c && c ≤ '9'

def digitsToNat (ds : List Char) : Nat :=
  ds.foldl (fun n c => n * 10 + (c.toNat - 48)) 0

/-- JSON integer literal: `-? (0 | [1-9][0-9]*)`. Fractional and exponent
parts are outside the modelled fragment (CPython would build a float). -/
def parseNum (cs : List Char) : Option (Int × List Char) :=
  let (neg, cs1) : Bool × List Char :=
    match cs with
    | '-' :: rest => (true, rest)
    | _ => (false, cs)
  match cs1 with
  | '0' :: rest => some (0, rest)
  | c :: _ =>
    if isDigit c && c ≠ '0' then
      let ds := cs1.takeWhile isDigit
      let rest := cs1.dropWhile isDigit
      let n : Int := Int.ofNat (digitsToNat ds)
      some (if neg then -n else n, rest)
    else none
  | [] => none

mutual

/-- One JSON value (recursive descent, fuel-bounded; the fuel passed by
`json_loads` always suffices since every recursive call consumes input). -/
def parseVal : Nat → List Char → Option (Json × List Char)
  | 0, _ => none
  | Nat.succ fuel, cs =>
    match skipWs cs with
    | '"' :: rest => (parseStrBody rest "").map (fun p => (Json.str p.1, p.2))
    | '\x7b' :: rest =>
      (match skipWs rest with
       | '\x7d' :: r => some (Json.obj [], r)
       | other => (parseMembers fuel other []).map (fun p => (Json.obj p.1, p.2)))
    | '[' :: rest =>
      (match skipWs rest with
       | ']' :: r => some (Json.arr [], r)
       | other => (parseItems fuel other []).map (fun p => (Json.arr p.1, p.2)))
    | 't' :: 'r' :: 'u' :: 'e' :: rest => some (Json.bool true, rest)
    | 'f' :: 'a' :: 'l' :: 's' :: 'e' :: rest => some (Json.bool false, rest)
    | 'n' :: 'u' :: 'l' :: 'l' :: rest => some (Json.null, rest)
    | other => (parseNum other).map (fun p => (Json.num p.1, p.2))

/-- Members of an object after `{`, at least one expected. Duplicate keys
overwrite in place, as in a CPython dict built by repeated assignment. -/
def parseMembers : Nat → List Char → Dict → Option (Dict × List Char)
  | 0, _, _ => none
  | Nat.succ fuel, cs, acc =>
    match skipWs cs with
    | '"' :: rest =>
      (match parseStrBody rest "" with
       | some (k, r1) =>
         (match skipWs r1 with
          | ':' :: r2 =>
            (match parseVal fuel r2 with
             | some (v, r3) =>
               (match skipWs r3 with
                | ',' :: r4 => parseMembers fuel r4 (dictSet acc k v)
                | '\x7d' :: r4 => some (dictSet acc k v, r4)
                | _ => none)
             | none => none)
          | _ => none)
       | none => none)
    | _ => none

/-- Items of an array after `[`, at least one expected. -/
def parseItems : Nat → List Char → List Json → Option (List Json × List Char)
  | 0, _, _ => none
  | Nat.succ fuel, cs, acc =>
    match parseVal fuel cs with
    | some (v, r1) =>
      (match skipWs r1 with
       | ',' :: r2 => parseItems fuel r2 (acc ++ [v])
       | ']' :: r2 => some (acc ++ [v], r2)
       | _ => none)
    | none => none

end

/-- Model of `json.loads`: one JSON value, optionally surrounded by whitespace,
covering the whole input. -/
def json_loads (s : String) : Option Json :=
  match parseVal (s.length + 2) s.data with
  | some (j, rest) => if (skipWs rest).isEmpty then some j else none
  | none => none

/-- Four lowercase hex digits, as the CPython `json` module emits in `\uXXXX`. -/
def hex4 (n : Nat) : String :=
  let dig := fun (m : Nat) =>
    if m < 10 then Char.ofNat (48 + m) else Char.ofNat (87 + m)
  ⟨[dig (n / 4096 % 16), dig (n / 256 % 16), dig (n / 16 % 16), dig (n % 16)]⟩

/-- One character of a dumped string literal (`ensure_ascii=True` default). -/
def escapeChar (c : Char) : String :=
  if c = '"' then "\\\""
  else if c = '\\' then "\\\\"
  else if c = '\n' then "\\n"
  else if c = '\r' then "\\r"
  else if c = '\t' then "\\t"
  else if c = Char.ofNat 8 then "\\b"
  else if c = Char.ofNat 12 then "\\f"
  else if c.toNat < 32 then "\\u" ++ hex4 c.toNat
  else if c.toNat < 128 then String.singleton c
  else if c.toNat < 65536 then "\\u" ++ hex4 c.toNat
  else
    let n := c.toNat - 65536
    "\\u" ++ hex4 (55296 + n / 1024) ++ "\\u" ++ hex4 (56320 + n % 1024)

def dumpStr (s : String) : String :=
  "\"" ++ String.join (s.data.map escapeChar) ++ "\""

mutual

/-- Model of `json.dumps(·, separators=(",", ":"))`: compact serialization, object
keys in insertion order. -/
def json_dumps : Json → String
  | .null => "null"
  | .bool true => "true"
  | .bool false => "false"
  | .num n => toString n
  | .str s => dumpStr s
  | .arr l => "[" ++ dumpsItems l ++ "]"
  | .obj m => "\x7b" ++ dumpsMembers m ++ "\x7d"

def dumpsItems : List Json → String
  | [] => ""
  | [j] => json_dumps j
  | j :: rest => json_dumps j ++ "," ++ dumpsItems rest

def dumpsMembers : List (String × Json) → String
  | [] => ""
  | [(k, v)] => dumpStr k ++ ":" ++ json_dumps v
  | (k, v) :: rest => dumpStr k ++ ":" ++ json_dumps v ++ "," ++ dumpsMembers rest

end

/-- Input after the first `{`, or `none` when no `{` occurs. -/
def afterFirstOpen : List Char → Option (List Char)
  | [] => none
  | c :: rest => if c = '\x7b' then some rest else afterFirstOpen rest

/-- Characters strictly before the first `}`, or `none` when no `}` occurs. -/
def upToFirstClose : List Char → Option (List Char)
  | [] => none
  | c :: rest =>
    if c = '\x7d' then some []
    else (upToFirstClose rest).map (fun l => c :: l)

/-- Model of `re.compile(r"\x7b.*?\x7d", re.S).search(s)`: the leftmost match of the
non-greedy brace pattern, i.e. the span from the first `{` through the first
`}` after it (with `re.S`, `.` also matches newlines). -/
def firstCandidate (s : String) : Option String :=
  (afterFirstOpen s.data).bind fun rest =>
    (upToFirstClose rest).map fun mid => ⟨'\x7b' :: (mid ++ ['\x7d'])⟩

/-- Model of `_extract_first_json`: first `{...}` block parsed as JSON; `None` when
there is no match or the match is not valid JSON (`json.JSONDecodeError`
is caught). -/
def extract_first_json (blob : String) : Option Json :=
  (firstCandidate blob).bind json_loads

/-- The constant `_SCHEMA_PROMPT`. -/
def SCHEMA_PROMPT : String :=
  "You MUST reply with pure JSON **only** (no markdown). If you cannot, reply with \x7b\"status\":\"error\",\"message\":\"Unable to comply\"\x7d."

/-- The message `{"role": "system", "content": instruction}`. -/
def sysMsg (instruction : String) : Json :=
  Json.obj [("role", Json.str "system"), ("content", Json.str instruction)]

/-- Model of `_inject_json_schema_prompt(payload)`: pops `response_format`; when it is
truthy, builds the instruction (`"schemajson_"`-typed formats read the schema
from key `"json_schema"`, anything else gets the bare prompt) and prepends a
system message to `messages`. Raised `KeyError`/`TypeError`/`AttributeError`
become `Except.error`. The returned dict is the mutated `payload`. -/
def inject_json_schema_prompt (payload : Dict) : Except String Dict :=
  let rf := (dictGet payload "response_format").getD Json.null
  let payload1 := dictRemove payload "response_format"
  if truthy rf = false then .ok payload1
  else
    match rf with
    | Json.obj rfo =>
      let instrE : Except String String :=
        match dictGet rfo "type" with
        | some (Json.str t) =>
          if t = "schemajson_" then
            match dictGet rfo "json_schema" with
            | some schema =>
              .ok (SCHEMA_PROMPT ++ " The response MUST validate against this schema:\n"
                   ++ json_dumps schema)
            | none => .error "KeyError: json_schema"
          else .ok SCHEMA_PROMPT
        | _ => .ok SCHEMA_PROMPT
      match instrE with
      | .error e => .error e
      | .ok instruction =>
        match dictGet payload1 "messages" with
        | some (Json.arr msgs) =>
          .ok (dictSet payload1 "messages" (Json.arr (sysMsg instruction :: msgs)))
        | some _ => .error "TypeError: can only concatenate list"
        | none => .error "KeyError: messages"
    | _ => .error "AttributeError: no attribute get"

/-- Model of `_unpack_content(choice)`: `choice.get("message", {})`, then the first
present of `content`, `tool_calls`, `function_call`, else `None`.
A non-dict `message` value (where the CPython `in` would substring-scan a
string or raise `TypeError`) is outside the modelled fragment. -/
def unpack_content (choice : Dict) : Except String Json :=
  match (dictGet choice "message").getD (Json.obj []) with
  | Json.obj msg =>
    .ok (match dictGet msg "content" with
      | some v => v
      | none =>
        match dictGet msg "tool_calls" with
        | some v => v
        | none =>
          match dictGet msg "function_call" with
          | some v => v
          | none => Json.null)
  | _ => .error "TypeError: message is not a dict"

/-- Model of `_relay_stream` / the inline `relay()` generator: yield each upstream
chunk unchanged, in arrival order. Chunks are byte strings. -/
def relay_stream : List (List Nat) → List (List Nat)
  | [] => []
  | c :: rest => c :: relay_stream rest

/-- The upstream side of one exchange: HTTP status, raw body text, the body
as parsed by `resp.json()`, and the byte chunks of `aiter_bytes()` when
streaming. -/
structure Upstream where
  status : Nat
  text : String
  json : Json
  chunks : List (List Nat)

/-- What the endpoint hands back to the HTTP layer. -/
inductive Outcome where
  | streamed (chunks : List (List Nat)) : Outcome
  | httpError (status : Nat) (detail : String) : Outcome
  | jsonOut (status : Nat) (data : Json) : Outcome

/-- The fixed refusal object of line 134. -/
def refusalObj : Json :=
  Json.obj [("status", Json.str "error"),
            ("message", Json.str "LLM did not return standalone JSON")]

/-- Lines 127–139: the sync-mode post-processing of the upstream JSON.
`body` is the request dict *after* `_inject_json_schema_prompt` mutated it —
the code re-reads `response_format` from that same dict. -/
def postprocess (body : Dict) (data : Json) : Except String Json :=
  match asObj data with
  | .error e => .error e
  | .ok dataObj =>
    match dictGet dataObj "choices" with
    | none => .error "KeyError: choices"
    | some choicesJ =>
      match asArr choicesJ with
      | .error e => .error e
      | .ok choices =>
        match choices with
        | [] => .error "IndexError: list index out of range"
        | choice0 :: restChoices =>
          match asObj choice0 with
          | .error e => .error e
          | .ok c0 =>
            match unpack_content c0 with
            | .error e => .error e
            | .ok raw =>
              let parsedOpt : Option Json :=
                match raw with
                | Json.str s => extract_first_json s
                | _ => none
              let refusal : Json :=
                if truthy ((dictGet body "response_format").getD Json.null)
                    && parsedOpt.isNone
                then refusalObj else Json.null
              let parsed : Json := parsedOpt.getD Json.null
              let (msgJ, c0a) := dictSetdefault c0 "message" (Json.obj [])
              match asObj msgJ with
              | .error e => .error e
              | .ok msg =>
                let (akJ, msg1) := dictSetdefault msg "additional_kwargs" (Json.obj [])
                match asObj akJ with
                | .error e => .error e
                | .ok ak =>
                  let ak1 := dictSet (dictSet ak "parsed" parsed) "refusal" refusal
                  let msg2 := dictSet msg1 "additional_kwargs" (Json.obj ak1)
                  let c0b := dictSet c0a "message" (Json.obj msg2)
                  .ok (Json.obj (dictSet dataObj "choices"
                        (Json.arr (Json.obj c0b :: restChoices))))

/-- Model of `chat_completions(request)`: capture `bool(body.get("stream", False))`,
mutate `body` via the transformer, then either relay the upstream byte
stream (stream branch), surface a non-200 upstream status as an
`HTTPException` with the upstream body text as detail, or post-process the
upstream JSON. -/
def chat_completions (body : Dict) (up : Upstream) : Except String Outcome :=
  let stream := truthy ((dictGet body "stream").getD (Json.bool false))
  match inject_json_schema_prompt body with
  | .error e => .error e
  | .ok body1 =>
    if stream then .ok (.streamed (relay_stream up.chunks))
    else if up.status ≠ 200 then .ok (.httpError up.status up.text)
    else
      match postprocess body1 up.json with
      | .error e => .error e
      | .ok data => .ok (.jsonOut 200 data)

/-- Path lookup `data.choices[0].message.additional_kwargs.<k>`, used only to
state theorems about the augmented reply. -/
def augKwarg (data : Json) (k : String) : Option Json :=
  match data with
  | Json.obj d =>
    match dictGet d "choices" with
    | some (Json.arr (Json.obj c0 :: _)) =>
      (match dictGet c0 "message" with
       | some (Json.obj msg) =>
         (match dictGet msg "additional_kwargs" with
          | some (Json.obj ak) => dictGet ak k
          | _ => none)
       | _ => none)
    | _ => none
  | _ => none

/-- Test whether `needle` occurs at the head of `hay`. -/
def subAt : List Char → List Char → Bool
  | [], _ => true
  | _ :: _, [] => false
  | n :: ns, h :: hs => n = h && subAt ns hs

/-- Test whether `needle` occurs somewhere in `hay`. -/
def hasSub (hay needle : List Char) : Bool :=
  match hay with
  | [] => needle.isEmpty
  | _ :: hs => subAt needle hay || hasSub hs needle

/-- Substring test on strings (Python `needle in hay`). -/
def strContains (hay needle : String) : Bool :=
  hasSub hay.data needle.data

/-- The condition of claim C10, as the claim words it: a second `{` appears
strictly between the first `{` and the first following `}`. -/
def hasSecondOpenBeforeClose (s : String) : Bool :=
  match afterFirstOpen s.data with
  | none => false
  | some rest =>
    match upToFirstClose rest with
    | none => false
    | some mid => mid.contains '\x7b'

/-- Holds (`true`) iff the endpoint produced a JSON (sync-mode) reply. -/
def isJsonOk (r : Except String Outcome) : Bool :=
  match r with
  | .ok (.jsonOut _ _) => true
  | _ => false

/-- The `additional_kwargs` entry `k` of the first choice of a sync-mode
reply, `none` on any other outcome. -/
def outcomeKwarg (r : Except String Outcome) (k : String) : Option Json :=
  match r with
  | .ok (.jsonOut _ d) => augKwarg d k
  | _ => none

/-- Spec §8 scenario: a `json_object` request whose model answer carries no
JSON, the case where the spec expects a refusal marker. -/
def exRefusalBody : Dict :=
  [("model", Json.str "llama"),
   ("messages", Json.arr [Json.obj [("role", Json.str "user"),
                                    ("content", Json.str "hi")]]),
   ("response_format", Json.obj [("type", Json.str "json_object")])]

def exRefusalUp : Upstream :=
  { status := 200
    text := ""
    json := Json.obj [("choices", Json.arr [Json.obj [("message", Json.obj
      [("role", Json.str "assistant"),
       ("content", Json.str "I cannot help with that")])]])]
    chunks := [] }

/-- The reply the embedded endpoint produces on `exRefusalBody`/`exRefusalUp`. -/
def exRefusalOut : Json :=
  Json.obj [("choices", Json.arr [Json.obj [("message", Json.obj
    [("role", Json.str "assistant"),
     ("content", Json.str "I cannot help with that"),
     ("additional_kwargs", Json.obj [("parsed", Json.null),
                                     ("refusal", Json.null)])])]])]

/-- A request using the canonical `json_schema` tag of the OpenAI contract,
schema under `schema` — exactly the shape the module docstring documents. -/
def exSchemaVal : Json :=
  Json.obj [("type", Json.str "object"),
            ("properties", Json.obj [("ok", Json.obj [("type", Json.str "boolean")])])]

def exCanonicalBody : Dict :=
  [("messages", Json.arr []),
   ("response_format", Json.obj [("type", Json.str "json_schema"),
                                 ("schema", exSchemaVal)])]

/-- A malformed schema-bearing format: the tag the code looks for, with the
schema under a key other than the `json_schema` the code reads. -/
def exMalformedBody : Dict :=
  [("messages", Json.arr []),
   ("response_format", Json.obj [("type", Json.str "schemajson_"),
                                 ("schema", exSchemaVal)])]

/-- A streaming request. -/
def exStreamBody : Dict :=
  [("stream", Json.bool true), ("messages", Json.arr [])]

def exStreamUp : Upstream :=
  { status := 200, text := "", json := Json.null
    chunks := [[100, 97, 116, 97], [58, 32], [123, 125]] }

/-- A plain request with no `response_format`. -/
def exPlainBody : Dict :=
  [("messages", Json.arr []), ("model", Json.str "llama")]

/-- A `json_object` request for the C7 witness. -/
def exJsonObjectBody : Dict :=
  [("messages", Json.arr [Json.obj [("role", Json.str "user"),
                                    ("content", Json.str "hi")]]),
   ("response_format", Json.obj [("type", Json.str "json_object")])]

/-- Upstream reply whose first choice carries `tool_calls` and no `content`. -/
def exToolCallsUp : Upstream :=
  { status := 200
    text := ""
    json := Json.obj [("choices", Json.arr [Json.obj [("message", Json.obj
      [("role", Json.str "assistant"),
       ("tool_calls", Json.arr [Json.obj [("id", Json.str "call_1")]])])]])]
    chunks := [] }

def exErrorUp : Upstream :=
  { status := 503, text := "upstream down", json := Json.null, chunks := [] }

/-- C10's counterexample input: the second `{` sits inside a string literal,
so the truncated candidate is the whole (valid) object. -/
def exBraceInStringInput : String := "\x7b\"a\":\"\x7b\"\x7d"

/-- C10's motivating input, a genuinely nested object. -/
def exNestedInput : String := "\x7b\"a\":\x7b\"b\":1\x7d\x7d"

theorem relay_stream_id (cs : List (List Nat)) : relay_stream cs = cs := by
  induction cs with
  | nil => rfl
  | cons c rest ih => simp [relay_stream, ih]

/-- Shape of every successful run of the transformer: either `response_format`
was absent/falsy and the dict is only stripped of that key, or it was truthy
and additionally one system message is prepended to `messages`. -/
theorem inject_ok_shape (payload p' : Dict)
    (h : inject_json_schema_prompt payload = .ok p') :
    (truthy ((dictGet payload "response_format").getD Json.null) = false
      ∧ p' = dictRemove payload "response_format")
    ∨ (truthy ((dictGet payload "response_format").getD Json.null) = true
      ∧ ∃ instruction msgs,
          p' = dictSet (dictRemove payload "response_format") "messages"
                (Json.arr (sysMsg instruction :: msgs))) := by
  simp only [inject_json_schema_prompt] at h
  split at h
  · rename_i hfalse
    injection h with h
    exact Or.inl ⟨hfalse, h.symm⟩
  · rename_i htrue
    simp only [Bool.not_eq_false] at htrue
    split at h
    · split at h
      · exact Except.noConfusion h
      · split at h
        · rename_i msgs _
          injection h with h
          exact Or.inr ⟨htrue, _, msgs, h.symm⟩
        · exact Except.noConfusion h
        · exact Except.noConfusion h
    · exact Except.noConfusion h

theorem inject_ok_removes_rf (payload p' : Dict)
    (h : inject_json_schema_prompt payload = .ok p') :
    dictGet p' "response_format" = none := by
  rcases inject_ok_shape payload p' h with ⟨_, rfl⟩ | ⟨_, _, _, rfl⟩
  · exact dictGet_remove_self payload "response_format"
  · rw [dictGet_set_other _ _ _ _ (by decide)]
    exact dictGet_remove_self payload "response_format"

/-- Claim C4: `extract_first_json` returns the parse of the first brace-delimited
candidate when one exists (so the parsed object when that candidate is valid
JSON, `none` when it is not), returns `none` when no candidate exists, and —
being a total function — never raises; on the examples of the spec it yields
`none`, `{"a":1}` and `none` respectively. -/
theorem extract_first_json_contract :
    (∀ s, firstCandidate s = none → extract_first_json s = none)
    ∧ (∀ s c, firstCandidate s = some c → extract_first_json s = json_loads c)
    ∧ extract_first_json "no braces here" = none
    ∧ extract_first_json "prefix \x7b\"a\":1\x7d suffix"
        = some (Json.obj [("a", Json.num 1)])
    ∧ extract_first_json "\x7b\"a\": invalid\x7d" = none := by
  refine ⟨?_, ?_, rfl, rfl, rfl⟩
  · intro s h
    simp [extract_first_json, h]
  · intro s c h
    simp [extract_first_json, h]

theorem extract_first_json_contract_witness :
    extract_first_json "no braces here" = none
    ∧ extract_first_json "prefix \x7b\"a\":1\x7d suffix" = json_loads "\x7b\"a\":1\x7d" :=
  ⟨extract_first_json_contract.1 "no braces here" rfl,
   extract_first_json_contract.2.1 "prefix \x7b\"a\":1\x7d suffix" "\x7b\"a\":1\x7d" rfl⟩

/-- Claim C5: the streaming relay is the identity on the upstream chunk sequence,
and on every streamed call (truthy `stream` in the request) the endpoint
emits exactly the upstream chunks, order preserved and contents unmodified. -/
theorem streaming_relay_identity (body body1 : Dict) (up : Upstream)
    (cs : List (List Nat))
    (hstream : truthy ((dictGet body "stream").getD (Json.bool false)) = true)
    (hinj : inject_json_schema_prompt body = .ok body1) :
    relay_stream cs = cs
    ∧ chat_completions body up = .ok (.streamed up.chunks) := by
  refine ⟨relay_stream_id cs, ?_⟩
  simp [chat_completions, hinj, hstream, relay_stream_id]

theorem streaming_relay_identity_witness :
    relay_stream [[100, 97, 116, 97], [58, 32], [123, 125]]
      = [[100, 97, 116, 97], [58, 32], [123, 125]]
    ∧ chat_completions exStreamBody exStreamUp
      = .ok (.streamed [[100, 97, 116, 97], [58, 32], [123, 125]]) :=
  streaming_relay_identity exStreamBody
    [("stream", Json.bool true), ("messages", Json.arr [])] exStreamUp
    [[100, 97, 116, 97], [58, 32], [123, 125]] rfl rfl

/-- Claim C9: on the non-streaming path, an upstream status other than 200 is
surfaced to the caller as an error response carrying the same status code
and the raw upstream body text as detail. -/
theorem upstream_error_propagated (body body1 : Dict) (up : Upstream)
    (hstream : truthy ((dictGet body "stream").getD (Json.bool false)) = false)
    (hinj : inject_json_schema_prompt body = .ok body1)
    (hstatus : up.status ≠ 200) :
    chat_completions body up = .ok (.httpError up.status up.text) := by
  simp [chat_completions, hinj, hstream, hstatus]

theorem upstream_error_propagated_witness :
    chat_completions exPlainBody exErrorUp = .ok (.httpError 503 "upstream down") :=
  upstream_error_propagated exPlainBody exPlainBody exErrorUp rfl rfl (by decide)

/-- Claim C3: a schema-bearing `response_format` whose schema sits under a key
other than the `"json_schema"` the code reads does not fail fast with a
classified "malformed response_format" client error — the transformer
raises a bare `KeyError` (an unclassified internal error). -/
theorem malformed_schema_key_raises (payload : Dict) (schema : Json)
    (h : dictGet payload "response_format" =
          some (Json.obj [("type", Json.str "schemajson_"), ("schema", schema)])) :
    inject_json_schema_prompt payload = .error "KeyError: json_schema" := by
  simp [inject_json_schema_prompt, h, truthy, dictGet]

theorem malformed_schema_key_raises_witness :
    inject_json_schema_prompt exMalformedBody = .error "KeyError: json_schema" :=
  malformed_schema_key_raises exMalformedBody exSchemaVal rfl

/-- Claim C2: on a request with the canonical `"json_schema"` tag and a supplied
schema, the code does not serialize the schema at all — the tag fails the
`"schemajson_"` comparison, so the prepended system message is exactly the
bare fixed preamble, which does not contain the compact JSON
serialization. -/
theorem canonical_schema_tag_not_serialized :
    inject_json_schema_prompt exCanonicalBody
      = .ok [("messages", Json.arr [sysMsg SCHEMA_PROMPT])]
    ∧ strContains SCHEMA_PROMPT (json_dumps exSchemaVal) = false :=
  ⟨rfl, rfl⟩

/-- Claim C7: a request with `response_format = {"type": "json_object"}` gets
exactly one message prepended to `messages`, with role `"system"` and
content the fixed preamble, and nothing else of the instruction. -/
theorem json_object_prepends_prompt (payload : Dict) (msgs : List Json)
    (hrf : dictGet payload "response_format"
            = some (Json.obj [("type", Json.str "json_object")]))
    (hmsgs : dictGet payload "messages" = some (Json.arr msgs)) :
    inject_json_schema_prompt payload =
      .ok (dictSet (dictRemove payload "response_format") "messages"
            (Json.arr (sysMsg SCHEMA_PROMPT :: msgs))) := by
  have hm : dictGet (dictRemove payload "response_format") "messages"
      = some (Json.arr msgs) := by
    rw [dictGet_remove_other _ _ _ (by decide), hmsgs]
  simp [inject_json_schema_prompt, hrf, hm, truthy, dictGet]

theorem json_object_prepends_prompt_witness :
    inject_json_schema_prompt exJsonObjectBody =
      .ok (dictSet (dictRemove exJsonObjectBody "response_format") "messages"
            (Json.arr (sysMsg SCHEMA_PROMPT ::
              [Json.obj [("role", Json.str "user"), ("content", Json.str "hi")]]))) :=
  json_object_prepends_prompt exJsonObjectBody
    [Json.obj [("role", Json.str "user"), ("content", Json.str "hi")]] rfl rfl

/-- Claim C10, counterexample: the condition of the claim — a second `{` strictly between
the first `{` and the first following `}` — does not force a `none` result:
when the inner brace lies inside a string literal the truncated candidate is
itself valid JSON and is returned parsed. -/
theorem nested_brace_claim_counterexample :
    hasSecondOpenBeforeClose exBraceInStringInput = true
    ∧ extract_first_json exBraceInStringInput
        = some (Json.obj [("a", Json.str "\x7b")]) := ⟨rfl, rfl⟩

/-- Claim C10, amended: when the first brace-delimited candidate contains a second
`{` and the candidate — truncated at the first closing brace by the
non-greedy scan — is not valid JSON, `extract_first_json` returns `none`;
in particular on `{"a":{"b":1}}` the candidate is the truncated
`{"a":{"b":1}` and the result is `none`. -/
theorem nested_brace_truncation :
    (∀ s c, hasSecondOpenBeforeClose s = true → firstCandidate s = some c →
        json_loads c = none → extract_first_json s = none)
    ∧ firstCandidate exNestedInput = some "\x7b\"a\":\x7b\"b\":1\x7d"
    ∧ extract_first_json exNestedInput = none := by
  refine ⟨?_, rfl, rfl⟩
  intro s c _ hc hl
  simp [extract_first_json, hc, hl]

theorem nested_brace_truncation_witness :
    extract_first_json exNestedInput = none :=
  nested_brace_truncation.1 exNestedInput "\x7b\"a\":\x7b\"b\":1\x7d" rfl rfl rfl

/-- Claim C6: the transformer removes `response_format` from the outgoing request
entirely (also when present but falsy), leaves every field other than
`response_format` and `messages` unchanged, and when `response_format` is
absent or falsy leaves `messages` unchanged too (the result is the request
merely stripped of the key). -/
theorem response_format_removed_frame (payload p' : Dict)
    (h : inject_json_schema_prompt payload = .ok p') :
    dictGet p' "response_format" = none
    ∧ (∀ k, k ≠ "response_format" → k ≠ "messages" → dictGet p' k = dictGet payload k)
    ∧ (truthy ((dictGet payload "response_format").getD Json.null) = false →
        p' = dictRemove payload "response_format"
        ∧ dictGet p' "messages" = dictGet payload "messages") := by
  refine ⟨inject_ok_removes_rf payload p' h, ?_, ?_⟩
  · intro k hk1 hk2
    rcases inject_ok_shape payload p' h with ⟨_, rfl⟩ | ⟨_, _, _, rfl⟩
    · exact dictGet_remove_other payload _ k (Ne.symm hk1)
    · rw [dictGet_set_other _ _ _ _ (Ne.symm hk2)]
      exact dictGet_remove_other payload _ k (Ne.symm hk1)
  · intro hfalse
    rcases inject_ok_shape payload p' h with ⟨_, rfl⟩ | ⟨htrue, _, _, rfl⟩
    · exact ⟨rfl, dictGet_remove_other payload _ _ (by decide)⟩
    · simp [hfalse] at htrue

theorem response_format_removed_frame_witness :
    dictGet exPlainBody "response_format" = none
    ∧ exPlainBody = dictRemove exPlainBody "response_format" :=
  ⟨(response_format_removed_frame exPlainBody exPlainBody rfl).1,
   ((response_format_removed_frame exPlainBody exPlainBody rfl).2.2 rfl).1⟩

/-- On a request dict without `response_format` — which is what the endpoint
re-reads after the transformer has popped the key — the reconciler computes
`refusal = null`. -/
theorem postprocess_refusal (body : Dict) (data d : Json)
    (hrf : dictGet body "response_format" = none)
    (h : postprocess body data = .ok d) :
    augKwarg d "refusal" = some Json.null := by
  simp only [postprocess, hrf, Option.getD_none, truthy, Bool.false_and] at h
  repeat' split at h
  all_goals try exact Except.noConfusion h
  all_goals try exact Bool.noConfusion ‹false = true›
  all_goals (injection h with h; subst h; simp [augKwarg, dictGet_set_self])

/-- Claim C1: the check guarding the refusal marker reads `response_format` from
the request dict after `_inject_json_schema_prompt` popped that key from the
very same dict, so on every non-streamed exchange the field
`additional_kwargs.refusal` is `null` — also when the original request did
request `response_format` and extraction failed, where the spec requires
the fixed error object. -/
theorem refusal_always_null (body : Dict) (up : Upstream) (d : Json)
    (h : chat_completions body up = .ok (.jsonOut 200 d)) :
    augKwarg d "refusal" = some Json.null := by
  simp only [chat_completions] at h
  split at h
  · exact Except.noConfusion h
  · rename_i body1 heq
    split at h
    · simp at h
    · split at h
      · simp at h
      · split at h
        · exact Except.noConfusion h
        · rename_i data hpost
          simp only [Except.ok.injEq, Outcome.jsonOut.injEq] at h
          obtain ⟨-, rfl⟩ := h
          exact postprocess_refusal body1 up.json data
            (inject_ok_removes_rf body body1 heq) hpost

theorem refusal_always_null_witness :
    augKwarg exRefusalOut "refusal" = some Json.null :=
  refusal_always_null exRefusalBody exRefusalUp exRefusalOut rfl

/-- When the message of the first choice has no `content` key and carries
`tool_calls` (or, failing that, `function_call`) with a non-string value,
post-processing succeeds and attaches `parsed = null`. -/
theorem postprocess_toolcalls (body : Dict) (dataObj c0 msg : Dict)
    (restChoices : List Json) (v : Json)
    (hchoices : dictGet dataObj "choices" = some (Json.arr (Json.obj c0 :: restChoices)))
    (hmsg : dictGet c0 "message" = some (Json.obj msg))
    (hcontent : dictGet msg "content" = none)
    (htc : dictGet msg "tool_calls" = some v
           ∨ (dictGet msg "tool_calls" = none ∧ dictGet msg "function_call" = some v))
    (hnotstr : ∀ s, v ≠ Json.str s)
    (hak : dictGet msg "additional_kwargs" = none
           ∨ ∃ a, dictGet msg "additional_kwargs" = some (Json.obj a)) :
    ∃ d, postprocess body (Json.obj dataObj) = .ok d
         ∧ augKwarg d "parsed" = some Json.null := by
  have hparse : (match v with
      | Json.str s => extract_first_json s
      | _ => (none : Option Json)) = none := by
    cases v <;> first | rfl | exact absurd rfl (hnotstr _)
  have hunpack : unpack_content c0 = .ok v := by
    rcases htc with htc | ⟨htc0, hfc⟩
    · simp [unpack_content, hmsg, hcontent, htc]
    · simp [unpack_content, hmsg, hcontent, htc0, hfc]
  have hsd1 : dictSetdefault c0 "message" (Json.obj []) = (Json.obj msg, c0) := by
    simp [dictSetdefault, hmsg]
  rcases hak with hak | ⟨a, hak⟩
  · have hsd2 : dictSetdefault msg "additional_kwargs" (Json.obj [])
        = (Json.obj [], msg ++ [("additional_kwargs", Json.obj [])]) := by
      simp [dictSetdefault, hak]
    have hpost : postprocess body (Json.obj dataObj)
        = .ok (Json.obj (dictSet dataObj "choices" (Json.arr (Json.obj
            (dictSet c0 "message" (Json.obj
              (dictSet (msg ++ [("additional_kwargs", Json.obj [])]) "additional_kwargs"
                (Json.obj [("parsed", Json.null),
                  ("refusal",
                    if truthy ((dictGet body "response_format").getD Json.null)
                    then refusalObj else Json.null)]))))
            :: restChoices)))) := by
      simp [postprocess, asObj, asArr, hchoices, hunpack, hparse, hsd1, hsd2, dictSet]
    refine ⟨_, hpost, ?_⟩
    simp [augKwarg, dictGet_set_self, dictGet]
  · have hsd2 : dictSetdefault msg "additional_kwargs" (Json.obj [])
        = (Json.obj a, msg) := by
      simp [dictSetdefault, hak]
    have hpost : postprocess body (Json.obj dataObj)
        = .ok (Json.obj (dictSet dataObj "choices" (Json.arr (Json.obj
            (dictSet c0 "message" (Json.obj
              (dictSet msg "additional_kwargs"
                (Json.obj (dictSet (dictSet a "parsed" Json.null) "refusal"
                  (if truthy ((dictGet body "response_format").getD Json.null)
                   then refusalObj else Json.null))))))
            :: restChoices)))) := by
      simp [postprocess, asObj, asArr, hchoices, hunpack, hparse, hsd1, hsd2]
    refine ⟨_, hpost, ?_⟩
    have hp : dictGet (dictSet (dictSet a "parsed" Json.null) "refusal"
        (if truthy ((dictGet body "response_format").getD Json.null)
         then refusalObj else Json.null)) "parsed" = some Json.null := by
      rw [dictGet_set_other _ _ _ _ (by decide), dictGet_set_self]
    simp [augKwarg, dictGet_set_self, hp]

/-- Claim C8: when the message of the first choice carries `tool_calls` or
`function_call` (a non-string payload) and no `content`, the non-streaming
exchange succeeds — no exception — and the extraction result attached as
`additional_kwargs.parsed` is `null`, whatever `response_format` the request
carried. -/
theorem toolcalls_extraction_none (body body1 : Dict) (up : Upstream)
    (dataObj c0 msg : Dict) (restChoices : List Json) (v : Json)
    (hinj : inject_json_schema_prompt body = .ok body1)
    (hstream : truthy ((dictGet body "stream").getD (Json.bool false)) = false)
    (hstatus : up.status = 200)
    (hdata : up.json = Json.obj dataObj)
    (hchoices : dictGet dataObj "choices" = some (Json.arr (Json.obj c0 :: restChoices)))
    (hmsg : dictGet c0 "message" = some (Json.obj msg))
    (hcontent : dictGet msg "content" = none)
    (htc : dictGet msg "tool_calls" = some v
           ∨ (dictGet msg "tool_calls" = none ∧ dictGet msg "function_call" = some v))
    (hnotstr : ∀ s, v ≠ Json.str s)
    (hak : dictGet msg "additional_kwargs" = none
           ∨ ∃ a, dictGet msg "additional_kwargs" = some (Json.obj a)) :
    isJsonOk (chat_completions body up) = true
    ∧ outcomeKwarg (chat_completions body up) "parsed" = some Json.null := by
  obtain ⟨d, hd, hp⟩ := postprocess_toolcalls body1 dataObj c0 msg restChoices v
    hchoices hmsg hcontent htc hnotstr hak
  have hcc : chat_completions body up = .ok (.jsonOut 200 d) := by
    simp [chat_completions, hinj, hstream, hstatus, hdata, hd]
  rw [hcc]
  exact ⟨rfl, hp⟩

theorem toolcalls_extraction_none_witness :
    isJsonOk (chat_completions exPlainBody exToolCallsUp) = true
    ∧ outcomeKwarg (chat_completions exPlainBody exToolCallsUp) "parsed"
        = some Json.null :=
  toolcalls_extraction_none exPlainBody exPlainBody exToolCallsUp
    [("choices", Json.arr [Json.obj [("message", Json.obj
      [("role", Json.str "assistant"),
       ("tool_calls", Json.arr [Json.obj [("id", Json.str "call_1")]])])]])]
    [("message", Json.obj
      [("role", Json.str "assistant"),
       ("tool_calls", Json.arr [Json.obj [("id", Json.str "call_1")]])])]
    [("role", Json.str "assistant"),
     ("tool_calls", Json.arr [Json.obj [("id", Json.str "call_1")]])]
    [] (Json.arr [Json.obj [("id", Json.str "call_1")]])
    rfl rfl rfl rfl rfl rfl rfl (Or.inl rfl)
    (fun _ h => Json.noConfusion h) (Or.inl rfl)

end GroqWrapper
